import Mathlib

/-!
# Verification development for the airline-demand dashboard (`app.py`)

Shallow embedding of the route-network / trend-simulation core of the
Streamlit app. Machine integers are modelled as `ℕ`/`ℤ` with explicit
reduction modulo `2^64` where 64-bit overflow matters; pandas frames are
modelled as Lean lists of rows; IEEE floating-point arithmetic is idealised
as exact rational arithmetic (`ℚ`), with the two genuinely external numeric
sources — the values `np.sin(2·π·t/12)` and the standard-normal draw stream
of `np.random.default_rng` — kept as explicit function parameters of the
model (the claims under study never depend on their concrete values, only
on how the program combines them).
-/

namespace AirlineDemand

/-! ## CPython string hashing

`app.py` computes `hash(route)` (lines 74 and 85) with Python's built-in
`hash`. For `str`, CPython ≥ 3.11 computes siphash13 over the UTF-8 bytes,
keyed by the 128-bit per-process hash secret `_Py_HashSecret.siphash`
(randomised at interpreter startup unless `PYTHONHASHSEED` is set), then
reinterprets the 64-bit result as a signed integer, mapping `-1` to `-2`
and hashing the empty string to `0`. The model below implements exactly
that algorithm over `ℕ` with explicit masking modulo `2^64`; it was checked
against CPython 3.11 (`PYTHONHASHSEED=0`, i.e. key `(0, 0)`) on the inputs
used in the theorems below. -/

/-- Reduce modulo `2^64` (64-bit unsigned wraparound). -/
def mask64 (n : ℕ) : ℕ := n % 18446744073709551616

/-- Left rotation of a 64-bit value `x` (assumed `< 2^64`) by `r` bits. -/
def rotl64 (x r : ℕ) : ℕ := mask64 (x <<< r) ||| (x >>> (64 - r))

/-- The four 64-bit state words of siphash. -/
structure SipState where
  v0 : ℕ
  v1 : ℕ
  v2 : ℕ
  v3 : ℕ

/-- One siphash round, as in CPython's `pyhash.c`
(`HALF_ROUND(v0,v1,v2,v3,13,16)` followed by `HALF_ROUND(v2,v1,v0,v3,17,21)`). -/
def sipRound (s : SipState) : SipState :=
  let a0 := mask64 (s.v0 + s.v1)
  let c0 := mask64 (s.v2 + s.v3)
  let b0 := rotl64 s.v1 13 ^^^ a0
  let d0 := rotl64 s.v3 16 ^^^ c0
  let a1 := rotl64 a0 32
  let c1 := mask64 (c0 + b0)
  let a2 := mask64 (a1 + d0)
  let b1 := rotl64 b0 17 ^^^ c1
  let d1 := rotl64 d0 21 ^^^ a2
  let c2 := rotl64 c1 32
  ⟨a2, b1, c2, d1⟩

/-- Little-endian value of a byte list (first byte least significant). -/
def wordLE (bs : List ℕ) : ℕ := bs.foldr (fun b acc => b + 256 * acc) 0

/-- Split a byte string into its full 8-byte little-endian words and the
trailing (< 8 bytes) remainder. -/
def sipBlocks : List ℕ → List ℕ × List ℕ
  | b0 :: b1 :: b2 :: b3 :: b4 :: b5 :: b6 :: b7 :: rest =>
    let p := sipBlocks rest
    (wordLE [b0, b1, b2, b3, b4, b5, b6, b7] :: p.1, p.2)
  | bs => ([], bs)

/-- siphash13 with key `(k0, k1)` over a byte string, exactly as in
CPython's `pysiphash13` (one compression round per word, three
finalisation rounds). -/
def sipHash13 (k0 k1 : ℕ) (msg : List ℕ) : ℕ :=
  let p := sipBlocks msg
  let b := mask64 ((msg.length % 256) <<< 56) ||| wordLE p.2
  let s0 : SipState :=
    ⟨mask64 k0 ^^^ 0x736f6d6570736575, mask64 k1 ^^^ 0x646f72616e646f6d,
     mask64 k0 ^^^ 0x6c7967656e657261, mask64 k1 ^^^ 0x7465646279746573⟩
  let s1 := p.1.foldl
    (fun s m =>
      let s' := sipRound { s with v3 := s.v3 ^^^ m }
      { s' with v0 := s'.v0 ^^^ m }) s0
  let s2 := sipRound { s1 with v3 := s1.v3 ^^^ b }
  let s3 := { s2 with v0 := s2.v0 ^^^ b, v2 := s2.v2 ^^^ 0xff }
  let s4 := sipRound (sipRound (sipRound s3))
  (s4.v0 ^^^ s4.v1) ^^^ (s4.v2 ^^^ s4.v3)

/-- Reinterpret a 64-bit unsigned value as a signed (two's-complement) integer. -/
def toSigned64 (n : ℕ) : ℤ :=
  if n < 9223372036854775808 then (n : ℤ) else (n : ℤ) - 18446744073709551616

/-- UTF-8 bytes of a string; for the ASCII route identifiers the claims use,
these are exactly the character code points (which is also CPython's internal
one-byte representation that `str.__hash__` feeds to siphash). -/
def strBytes (s : String) : List ℕ := s.toList.map Char.toNat

/-- CPython's `hash` on a `str` value, for a process whose hash secret is
`(k0, k1)`: siphash13 of the bytes, read as a signed 64-bit integer, with
`-1` mapped to `-2` and the empty string hashed to `0`. -/
def pyHashStr (k0 k1 : ℕ) (s : String) : ℤ :=
  if s.length = 0 then 0
  else
    let h := toSigned64 (sipHash13 k0 k1 (strBytes s))
    if h = -1 then -2 else h

/-- The price baseline `base = 100 + (hash(route) % 50)` from `simulate_price_trend` (line 74);
Python's `%` on a positive modulus agrees with `Int.emod`. -/
def pyBase (k0 k1 : ℕ) (route : String) : ℤ := 100 + pyHashStr k0 k1 route % 50

/-- The booking baseline `base = 500 + (hash(route) % 200)` from `simulate_booking_counts` (line 85). -/
def pyBase2 (k0 k1 : ℕ) (route : String) : ℤ := 500 + pyHashStr k0 k1 route % 200

/-! ## Calendar dates and `pd.date_range(end=today, periods=months, freq="M")`

A timestamp is modelled at day granularity (the time-of-day component that
`pd.Timestamp.today()` carries is immaterial to every claim): `mi` is the
absolute month index `12·year + month` (month `0` = January) and `day` the
day of month. `freq="M"` is pandas month-END frequency: the generated range
consists of month-end timestamps lying on or before `end`, so `end` is
first rolled back to the latest month end at or before it. -/

structure Date where
  mi : ℤ
  day : ℕ
deriving DecidableEq, Repr

/-- Gregorian leap-year rule. -/
def isLeap (y : ℤ) : Bool := (y % 4 == 0 && y % 100 != 0) || y % 400 == 0

/-- Number of days in the month with absolute month index `mi`. -/
def daysInMonth (mi : ℤ) : ℕ :=
  let m := (mi % 12).toNat
  if m == 1 then (if isLeap (mi / 12) then 29 else 28)
  else if m == 3 || m == 5 || m == 8 || m == 10 then 30
  else 31

/-- Month index of the latest month end on or before `d` (pandas `MonthEnd.rollback`). -/
def rollbackMonthEnd (d : Date) : ℤ :=
  if d.day = daysInMonth d.mi then d.mi else d.mi - 1

/-- Model of `pd.date_range(end=endD, periods=periods, freq="M")`: `periods`
consecutive month-end timestamps, the last being the latest month end on or
before `endD`. -/
def date_range_end_M (endD : Date) (periods : ℕ) : List Date :=
  (List.range periods).map (fun (i : ℕ) =>
    let m := rollbackMonthEnd endD + (i : ℤ) - ((periods : ℤ) - 1)
    ⟨m, daysInMonth m⟩)

/-! ## The trend simulator (`simulate_price_trend`, `simulate_booking_counts`)

The ambient state a call can observe is collected in `Env`:

* `k0`, `k1` — the process's hash secret feeding `hash(route)`;
* `sinT t` — the (float) value `np.sin(2 * np.pi * t / 12)`, kept abstract
  because its values are transcendental; both simulators and both claim
  formulas consume the same function, so no claim depends on its values;
* `stdNorm sm` — the standard-normal draw stream of the bit generator
  created by `np.random.default_rng` from seed material `sm`;
  `Generator.normal(0, sigma, size=n)` returns `sigma * stdNorm sm t` for
  `t = 0, …, n-1` (numpy scales a standard-normal draw by `scale`);
* `today` — the date of `pd.Timestamp.today()` at the call.

`np.random.default_rng(seed)` is seeded from `seed` itself when one is
given, and from fresh OS entropy otherwise; the entropy consumed by an
unseeded call is passed explicitly to each simulator call. -/

structure Env where
  k0 : ℕ
  k1 : ℕ
  sinT : ℕ → ℚ
  stdNorm : ℕ → ℕ → ℚ
  today : Date

/-- Seed material actually consumed by `np.random.default_rng(seed)`:
the given seed if present, otherwise the fresh OS entropy of this call. -/
def seedMaterial (seed : Option ℕ) (entropy : ℕ) : ℕ := seed.getD entropy

/-- The price noise `noise = rng.normal(0, 6, size=months)` of `simulate_price_trend` (line 76),
at index `t`. -/
def price_noise (env : Env) (seed : Option ℕ) (entropy t : ℕ) : ℚ :=
  6 * env.stdNorm (seedMaterial seed entropy) t

/-- The booking noise `noise = rng.normal(0, 40, size=months)` of `simulate_booking_counts`
(line 86), at index `t`. -/
def booking_noise (env : Env) (seed : Option ℕ) (entropy t : ℕ) : ℚ :=
  40 * env.stdNorm (seedMaterial seed entropy) t

/-- The price value `prices[t] = base + season[t] + trend[t] + noise[t]` (line 77), with
`season = 15 * np.sin(2*np.pi*t/12)`, `base = 100 + (hash(route) % 50)` and
`trend = 0.5 * t`. -/
def price_at (env : Env) (route : String) (seed : Option ℕ) (entropy t : ℕ) : ℚ :=
  (pyBase env.k0 env.k1 route : ℚ) + 15 * env.sinT t + (1/2 : ℚ) * t
    + price_noise env seed entropy t

/-- The DataFrame returned by `simulate_price_trend`. -/
structure PriceFrame where
  month : List Date
  price : List ℚ

/-- Model of `simulate_price_trend(route, months=24, seed=None)` (lines 70–79). -/
def simulate_price_trend (env : Env) (route : String) (months : ℕ := 24)
    (seed : Option ℕ := none) (entropy : ℕ := 0) : PriceFrame :=
  { month := date_range_end_M env.today months
    price := (List.range months).map (price_at env route seed entropy) }

/-- C-style float→int conversion (`ndarray.astype(int)`): truncation toward
zero, not rounding to nearest. -/
def npAstypeInt (q : ℚ) : ℤ := if 0 ≤ q then ⌊q⌋ else -⌊-q⌋

/-- The float value `base + season[t] + noise[t]` of `simulate_booking_counts`
(line 87) before `np.maximum(0, ·).astype(int)`, with
`season = 300 * (1 + 0.4 * np.sin(2*np.pi*t/12))` and
`base = 500 + (hash(route) % 200)`. -/
def booking_raw (env : Env) (route : String) (seed : Option ℕ) (entropy t : ℕ) : ℚ :=
  (pyBase2 env.k0 env.k1 route : ℚ) + 300 * (1 + (2/5 : ℚ) * env.sinT t)
    + booking_noise env seed entropy t

/-- The booking count `counts[t] = np.maximum(0, base + season + noise).astype(int)[t]` (line 87). -/
def booking_at (env : Env) (route : String) (seed : Option ℕ) (entropy t : ℕ) : ℤ :=
  npAstypeInt (max 0 (booking_raw env route seed entropy t))

/-- The DataFrame returned by `simulate_booking_counts`. -/
structure BookingFrame where
  month : List Date
  bookings : List ℤ

/-- Model of `simulate_booking_counts(route, months=24, seed=None)` (lines 81–89). -/
def simulate_booking_counts (env : Env) (route : String) (months : ℕ := 24)
    (seed : Option ℕ := none) (entropy : ℕ := 0) : BookingFrame :=
  { month := date_range_end_M env.today months
    bookings := (List.range months).map (booking_at env route seed entropy) }

/-- The booking formula exactly as §4.4 of the specification words it:
`bookings[t] = max(0, round(base2 + 300·(1 + 0.4·sin(2π·t/12)) + noise2[t]))`,
i.e. rounding to the nearest integer before clamping (stated for comparison
with the implementation's `booking_at`; it shares every sub-term with the
code except the float→integer conversion). -/
def spec_booking_at (env : Env) (route : String) (seed : Option ℕ) (entropy t : ℕ) : ℤ :=
  max 0 (round (booking_raw env route seed entropy t))

/-! ## Route network builder (`prepare_routes`, lines 45–67)

Frames are lists of rows; every column read from the feed has pandas dtype
`str` with possible `NaN`, modelled as `Option String` (`none` = `NaN`).
Only the airport columns that `prepare_routes` selects
(`IATA, City, Country, Name, Latitude, Longitude`) are carried. -/

structure Airport where
  iata : Option String
  city : Option String
  country : Option String
  name : Option String
  lat : Option String
  lon : Option String
deriving DecidableEq, Repr

structure RouteRow where
  airline : Option String
  airlineId : Option String
  sourceIATA : Option String
  sourceAirportId : Option String
  destIATA : Option String
  destAirportId : Option String
  codeshare : Option String
  stops : Option String
  equipment : Option String
deriving DecidableEq, Repr

/-- One row of the enriched route table: the route row, the airport matched
on each endpoint (`none` where the left join found no match), and the derived
`route` column (`NaN` when either IATA is `NaN`, since string concatenation
with `NaN` is `NaN` in pandas). -/
structure Enriched where
  row : RouteRow
  src : Option Airport
  dst : Option Airport
  route : Option String
deriving DecidableEq, Repr

/-- The `SourceCountry` column of an enriched row (`NaN` when the source join
missed, or when the matched airport's own `Country` is `NaN`). -/
def Enriched.sourceCountry (e : Enriched) : Option String := e.src.bind (·.country)

/-- The airport filter `a = airports[airports.IATA.notna()]; a = a[a.IATA != "\\N"]` (lines 46–47). -/
def airportEligible (a : Airport) : Bool := a.iata.isSome && a.iata != some "\\N"

def filtered_airports (airports : List Airport) : List Airport :=
  airports.filter airportEligible

/-- The route filter `r = r[(r.SourceIATA != "\\N") & (r.DestIATA != "\\N")]` (line 50); note
pandas evaluates `NaN != "\\N"` to `True`, so `NaN` keys pass this filter. -/
def routeEligible (r : RouteRow) : Bool :=
  r.sourceIATA != some "\\N" && r.destIATA != some "\\N"

def filtered_routes (routes : List RouteRow) : List RouteRow :=
  routes.filter routeEligible

/-- Model of pandas `DataFrame.merge(..., how="left")`: each left row is emitted once
per matching right row, in right-frame order, and once with a null payload if
nothing matches. -/
def leftMerge {α β : Type} (matchKey : α → β → Bool) (ls : List α) (rs : List β) :
    List (α × Option β) :=
  ls.flatMap (fun l =>
    match rs.filter (matchKey l) with
    | [] => [(l, none)]
    | ms => ms.map (fun m => (l, some m)))

/-- Model of `prepare_routes(airports, routes)` (lines 45–67): filter both frames,
left-join the airport table on `SourceIATA` and then on `DestIATA`, and derive
`route = SourceIATA + "-" + DestIATA`. -/
def prepare_routes (airports : List Airport) (routes : List RouteRow) : List Enriched :=
  let a := filtered_airports airports
  let r := filtered_routes routes
  let r1 := leftMerge (fun (row : RouteRow) (ap : Airport) => row.sourceIATA == ap.iata) r a
  let r2 := leftMerge (fun (p : RouteRow × Option Airport) (ap : Airport) =>
    p.1.destIATA == ap.iata) r1 a
  r2.map (fun p =>
    { row := p.1.1
      src := p.1.2
      dst := p.2
      route :=
        match p.1.1.sourceIATA, p.1.1.destIATA with
        | some s, some d => some (s ++ "-" ++ d)
        | _, _ => none })

/-! ## Route ranker (`route_counts`, lines 122–132)

`routes_filtered.groupby("route").size()` groups by the non-null route keys
and — with pandas' default `sort=True` — emits one row per distinct key in
ascending key order; `.sort_values("count", ascending=False)` then sorts by
count. numpy's default `quicksort` runs plain insertion sort on arrays
shorter than 17 elements, which is what `List.insertionSort` models (for the
concrete tables evaluated below this is the exact pandas behaviour). -/

/-- The country filter `routes if country_filter == "All" else routes[routes.SourceCountry == country_filter]`
(line 124); `filt = none` is the "All" sentinel. -/
def routes_filtered (rows : List Enriched) (filt : Option String) : List Enriched :=
  match filt with
  | none => rows
  | some c => rows.filter (fun e => e.sourceCountry == some c)

/-- Code-point lexicographic comparison of character lists — Python's `<=`
on strings, the order in which pandas sorts the group keys. -/
def charListLe : List Char → List Char → Bool
  | [], _ => true
  | _ :: _, [] => false
  | a :: as, b :: bs =>
    if a.toNat < b.toNat then true
    else if b.toNat < a.toNat then false
    else charListLe as bs

/-- Python's `<=` on strings. -/
def strLe (a b : String) : Bool := charListLe a.toList b.toList

/-- Model of `routes_filtered.groupby("route").size().reset_index(name="count")
.sort_values("count", ascending=False)` (lines 127–132). -/
def route_counts (rows : List Enriched) (filt : Option String) : List (String × ℕ) :=
  let rf := routes_filtered rows filt
  let keys := (rf.filterMap Enriched.route).dedup
  let grouped := (List.insertionSort (fun a b : String => strLe a b = true) keys).map
    (fun k => (k, (rf.filterMap Enriched.route).count k))
  List.insertionSort (fun a b : String × ℕ => b.2 ≤ a.2) grouped

/-! ## Live flight gateway (`get_live_flights`, lines 92–108) and its caller
(lines 178–197)

The JSON values relevant to these code paths are strings, arrays and
objects (`resp.json()` of the flights endpoint); `HttpOutcome` is what the
`requests.get / raise_for_status / resp.json()` block can produce: a parsed
2xx body, or an exception (timeout, non-2xx status, malformed JSON) whose
message is `str(e)`. -/

inductive Json where
  | str : String → Json
  | arr : List Json → Json
  | obj : List (String × Json) → Json

/-- Python's `k in j` for the values above: key membership for a dict,
element membership for a list (a string element equal to `k`), substring
test for a string. -/
def pyIn (k : String) : Json → Bool
  | .obj kvs => kvs.any (fun kv => kv.1 == k)
  | .arr xs => xs.any (fun x => match x with | .str s => s == k | _ => false)
  | .str s => (s.splitOn k).length ≥ 2

/-- Python's `j.get(k, dflt)` on a dict (first binding of `k` wins). -/
def dictGet (j : Json) (k : String) (dflt : Json) : Json :=
  match j with
  | .obj kvs =>
    match kvs.find? (fun kv => kv.1 == k) with
    | some kv => kv.2
    | none => dflt
  | _ => dflt

/-- Python falsiness of the values above (`if not data:`). -/
def pyFalsy : Json → Bool
  | .arr [] => true
  | .str "" => true
  | .obj [] => true
  | _ => false

/-- Python truthiness of the credential (`if not AVIATIONSTACK_KEY:`):
`os.getenv` yields `None` when unset, and the empty string is also falsy. -/
def keyFalsy : Option String → Bool
  | none => true
  | some s => s.isEmpty

/-- The outcome of the guarded HTTP block. -/
inductive HttpOutcome where
  | ok : Json → HttpOutcome
  | exn : String → HttpOutcome

/-- The fixed failure value returned when the credential is missing (line 94). -/
def missing_key_error : Json :=
  Json.obj [("error", Json.str "AVIATIONSTACK_KEY missing. Add it to .env or Streamlit Secrets.")]

/-- Model of `get_live_flights(origin, destination, limit=10)` (lines 92–108), as a
function of the credential and the HTTP outcome. The second component
records whether the HTTP request was attempted at all. -/
def get_live_flights (key : Option String) (http : HttpOutcome) : Json × Bool :=
  if keyFalsy key then (missing_key_error, false)
  else
    match http with
    | .ok body => (body, true)
    | .exn msg => (Json.obj [("error", Json.str msg)], true)

/-- The three ways the UI renders a gateway result (lines 178–197):
`st.error(flights["error"])`, the `st.info` "no live flights" message, or the
flight table. -/
inductive UiBranch where
  | errorMsg : Json → UiBranch
  | infoNoFlights : UiBranch
  | table : Json → UiBranch

/-- Whether a UI branch is the `st.error` one. -/
def UiBranch.isError : UiBranch → Bool
  | .errorMsg _ => true
  | _ => false

/-- The caller's classification of a gateway result (lines 178–183):
`if "error" in flights: st.error(...) else: data = flights.get("data", []);
if not data: st.info(...) else: <table>`. -/
def live_flights_branch (flights : Json) : UiBranch :=
  if pyIn "error" flights then .errorMsg (dictGet flights "error" (Json.obj []))
  else
    let data := dictGet flights "data" (Json.arr [])
    if pyFalsy data then .infoNoFlights
    else .table data

/-! ## Concrete fixtures used by the counterexamples and witnesses -/

/-- A concrete ambient state: hash secret `(0, 0)` (the secret CPython uses
under `PYTHONHASHSEED=0`), `sin` and the normal draws evaluated only at
points where the fixed values below are the true ones or where the claim
under test does not depend on them, and today = 2026-10-12
(month index `24321 = 2026·12 + 9`). -/
def env0 : Env :=
  { k0 := 0, k1 := 0, sinT := fun _ => 0, stdNorm := fun _ _ => 0
    today := { mi := 24321, day := 12 } }

/-- Variant of `env0` with the second process's hash secret `(1, 0)`. -/
def env1 : Env := { env0 with k0 := 1 }

/-- Variant of `env0` with a draw stream that depends on the seed material (as the real
generator's does): the `t`-th draw of the stream seeded by `sm` is `sm + t`. -/
def envEnt : Env := { env0 with stdNorm := fun sm t => (sm : ℚ) + t }

/-- Variant of `env0` with every normal draw equal to `7/400 = 0.0175`, so that the
booking float at `t = 0` lands on `…·.7`, between two integers. -/
def envC6 : Env := { env0 with stdNorm := fun _ _ => 7/400 }

/-- A small airport table: two eligible airports with distinct IATA codes and
one sentinel-IATA row (dropped by the eligibility filter). -/
def demoAirports : List Airport :=
  [ { iata := some "SYD", city := some "Sydney", country := some "Australia",
      name := some "Sydney Kingsford Smith", lat := some "-33.94", lon := some "151.17" },
    { iata := some "MEL", city := some "Melbourne", country := some "Australia",
      name := some "Melbourne Tullamarine", lat := some "-37.67", lon := some "144.84" },
    { iata := some "\\N", city := none, country := none,
      name := none, lat := none, lon := none } ]

/-- A small route table: one row resolvable at both endpoints, one row whose
destination has no airport (kept with nulls), one sentinel row (filtered out). -/
def demoRoutes : List RouteRow :=
  [ { airline := some "QF", airlineId := some "4089", sourceIATA := some "SYD",
      sourceAirportId := some "3361", destIATA := some "MEL", destAirportId := some "3339",
      codeshare := none, stops := some "0", equipment := some "73H" },
    { airline := some "VA", airlineId := some "5360", sourceIATA := some "SYD",
      sourceAirportId := some "3361", destIATA := some "BNE", destAirportId := some "3320",
      codeshare := none, stops := some "0", equipment := some "73H" },
    { airline := some "QF", airlineId := some "4089", sourceIATA := some "\\N",
      sourceAirportId := none, destIATA := some "MEL", destAirportId := some "3339",
      codeshare := none, stops := some "0", equipment := some "73H" } ]

/-- A route row with every column null (only the derived `route` of the
enriched rows below matters to the ranker). -/
def blankRow : RouteRow :=
  { airline := none, airlineId := none, sourceIATA := none, sourceAirportId := none,
    destIATA := none, destAirportId := none, codeshare := none, stops := none,
    equipment := none }

/-- Enriched row seen first, with route `"ZZZ-AAA"`. -/
def rowZ : Enriched := { row := blankRow, src := none, dst := none, route := some "ZZZ-AAA" }

/-- Enriched row seen second, with route `"AAA-BBB"`. -/
def rowA : Enriched := { row := blankRow, src := none, dst := none, route := some "AAA-BBB" }

/-- Applying `astype(int)` to the output of `np.maximum(0, ·)` is a plain
floor, the argument being non-negative. -/
theorem npAstypeInt_max_nonneg (q : ℚ) : npAstypeInt (max 0 q) = ⌊max 0 q⌋ := by
  unfold npAstypeInt
  rw [if_pos (le_max_left _ _)]

/-! ## C1 — determinism under an explicit seed -/

/-- C1: For every route identifier, months value and explicitly given
seed, two calls of the simulators with the same `(route, months, seed)` —
in the same process (same hash secret) but with independently drawn OS
entropy — return element-for-element identical price and booking series:
with `seed = some s` the generator is seeded from `s`, so the entropy plays
no part. -/
theorem simulate_deterministic_under_explicit_seed
    (env : Env) (route : String) (months s e1 e2 : ℕ) :
    (simulate_price_trend env route months (some s) e1).price
      = (simulate_price_trend env route months (some s) e2).price
    ∧ (simulate_booking_counts env route months (some s) e1).bookings
      = (simulate_booking_counts env route months (some s) e2).bookings :=
  ⟨rfl, rfl⟩

/-! ## C10 — no determinism guarantee when the seed is omitted -/

/-- C10: `simulate_price_trend` and `simulate_booking_counts` default
`seed` to `None` (encoded as the `:= none` default of the embedded
signatures); under `seed = none` the generator is seeded from the fresh OS
entropy of the call, so two calls with identical `(route, months)` can
return different series — here a concrete ambient state and two entropy
values under which both series differ — while with any explicit seed the
output is independent of the entropy. -/
theorem unseeded_simulation_not_deterministic :
    (∃ (env : Env) (route : String) (months e1 e2 : ℕ),
      (simulate_price_trend env route months none e1).price
        ≠ (simulate_price_trend env route months none e2).price
      ∧ (simulate_booking_counts env route months none e1).bookings
        ≠ (simulate_booking_counts env route months none e2).bookings)
    ∧ ∀ (env : Env) (route : String) (months s e1 e2 : ℕ),
      (simulate_price_trend env route months (some s) e1).price
        = (simulate_price_trend env route months (some s) e2).price
      ∧ (simulate_booking_counts env route months (some s) e1).bookings
        = (simulate_booking_counts env route months (some s) e2).bookings := by
  refine ⟨⟨envEnt, "SYD-MEL", 1, 0, 1, ?_, ?_⟩, fun _ _ _ _ _ _ => ⟨rfl, rfl⟩⟩
  · simp only [simulate_price_trend, show List.range 1 = [0] from rfl, List.map_cons,
      List.map_nil, ne_eq, List.cons.injEq, and_true, price_at, price_noise, seedMaterial,
      envEnt, env0, Option.getD_none]
    push_cast
    intro h
    linarith
  · have h0 : booking_at envEnt "SYD-MEL" none 0 0 = 884 := by
      have hraw : booking_raw envEnt "SYD-MEL" none 0 0 = 884 := by
        simp only [booking_raw, booking_noise, seedMaterial, envEnt, env0, Option.getD_none]
        norm_num [show pyBase2 0 0 "SYD-MEL" = (584 : ℤ) from by decide]
      unfold booking_at
      rw [npAstypeInt_max_nonneg, hraw]
      norm_num
    have h1 : booking_at envEnt "SYD-MEL" none 1 0 = 924 := by
      have hraw : booking_raw envEnt "SYD-MEL" none 1 0 = 924 := by
        simp only [booking_raw, booking_noise, seedMaterial, envEnt, env0, Option.getD_none]
        norm_num [show pyBase2 0 0 "SYD-MEL" = (584 : ℤ) from by decide]
      unfold booking_at
      rw [npAstypeInt_max_nonneg, hraw]
      norm_num
    simp only [simulate_booking_counts, show List.range 1 = [0] from rfl, List.map_cons,
      List.map_nil, ne_eq, List.cons.injEq, and_true]
    rw [h0, h1]
    decide

/-! ## C2 — the price baseline is built on the process-randomised hash -/

/-- C2 (failing input): The baseline is `100 + (hash(route) % 50)` with
Python's built-in `hash`, which keys siphash13 with the per-process random
hash secret: for `"SYD-MEL"` a process with secret `(0, 0)` computes
baseline `134` while a process with secret `(1, 0)` computes `133`, so the
whole price series differs between the two runs even with identical
`(route, months, seed)` — the baseline is not stable across runs, contrary
to the claim (and the code's own reproducible-demo intent stated in the
specification). -/
theorem price_baseline_varies_across_processes :
    pyBase 0 0 "SYD-MEL" = 134 ∧ pyBase 1 0 "SYD-MEL" = 133
    ∧ (simulate_price_trend env0 "SYD-MEL" 1 (some 42) 0).price
        ≠ (simulate_price_trend env1 "SYD-MEL" 1 (some 42) 0).price := by
  refine ⟨by decide, by decide, ?_⟩
  simp only [simulate_price_trend, show List.range 1 = [0] from rfl, List.map_cons,
    List.map_nil, ne_eq, List.cons.injEq, and_true, price_at, price_noise, seedMaterial,
    env1, env0, Option.getD_some]
  rw [show pyBase 0 0 "SYD-MEL" = 134 from by decide,
    show pyBase 1 0 "SYD-MEL" = 133 from by decide]
  push_cast
  intro h
  linarith

/-! ## C3 — same seed, different routes: noise offsets vs baselines -/

/-- C3 (counterexample): The claim asserts that any two *distinct* route
identifiers give *different* baseline levels. False: there are only 50
possible baselines, and already under hash secret `(0, 0)` the distinct
routes `"SYD-MEL"` and `"MEL-FRA"` hash to the same baseline `134`, making
their entire 36-month price series identical for the same seed. -/
theorem distinct_routes_equal_baseline :
    ("SYD-MEL" : String) ≠ "MEL-FRA"
    ∧ pyBase 0 0 "SYD-MEL" = pyBase 0 0 "MEL-FRA"
    ∧ (simulate_price_trend env0 "SYD-MEL" 36 (some 42) 0).price
        = (simulate_price_trend env0 "MEL-FRA" 36 (some 42) 0).price := by
  refine ⟨by decide, by decide, ?_⟩
  simp only [simulate_price_trend]
  apply List.map_congr_left
  intro t _
  unfold price_at
  rw [show pyBase env0.k0 env0.k1 "SYD-MEL" = pyBase env0.k0 env0.k1 "MEL-FRA" from by decide]

/-- C3 (amended): For any two route identifiers simulated with the same
months, seed and entropy, the noise-plus-seasonal offsets
`price[t] - base` agree at every month index (the noise stream depends only
on the seed, never on the route), and the baseline levels differ exactly
when the two hashes differ modulo 50 — not for every pair of distinct
identifiers. -/
theorem price_noise_offsets_route_independent
    (env : Env) (r1 r2 : String) (seed : Option ℕ) (entropy t : ℕ) :
    price_at env r1 seed entropy t - (pyBase env.k0 env.k1 r1 : ℚ)
      = price_at env r2 seed entropy t - (pyBase env.k0 env.k1 r2 : ℚ)
    ∧ (pyBase env.k0 env.k1 r1 ≠ pyBase env.k0 env.k1 r2
        ↔ pyHashStr env.k0 env.k1 r1 % 50 ≠ pyHashStr env.k0 env.k1 r2 % 50) := by
  constructor
  · unfold price_at price_noise
    ring
  · unfold pyBase
    omega

/-! ## C7 — the booking noise stream is a scalar multiple of the price one -/

/-- C7 (counterexample): Both simulators call
`np.random.default_rng(seed)` with the *same* seed, so both scale the same
standard-normal stream — by 6 for prices, by 40 for bookings. At seed 42
the 36 booking-noise draws are exactly `40/6 = 20/3` times the price-noise
draws, index for index: the two streams are a fixed scalar multiple of each
other, not independent. -/
theorem booking_noise_proportional_at_seed42 :
    (List.range 36).map (booking_noise envEnt (some 42) 0)
      = ((List.range 36).map (price_noise envEnt (some 42) 0)).map
          (fun q => (20/3 : ℚ) * q) := by
  rw [List.map_map]
  apply List.map_congr_left
  intro t _
  simp only [Function.comp_apply]
  unfold booking_noise price_noise
  ring

/-- C7 (amended): For every ambient state, seed (explicit or not),
entropy and month index, the booking-series noise draw equals `20/3` times
the price-series noise draw: the same seeding discipline makes the two
streams perfectly dependent, not independent. -/
theorem booking_noise_scales_price_noise
    (env : Env) (seed : Option ℕ) (entropy t : ℕ) :
    booking_noise env seed entropy t = (20/3 : ℚ) * price_noise env seed entropy t := by
  unfold booking_noise price_noise
  ring

/-! ## C6 — booking values: truncation, not rounding -/

/-- C6 (counterexample): `astype(int)` truncates toward zero; it does
not round to the nearest integer. With a draw stream whose value at index 0
is `0.0175`, the booking float at `t = 0` is `584 + 300 + 0.7 = 884.7`: the
code produces `884`, the claimed `max(0, round(...))` produces `885`. -/
theorem booking_truncates_not_rounds :
    booking_at envC6 "SYD-MEL" (some 42) 0 0 = 884
    ∧ spec_booking_at envC6 "SYD-MEL" (some 42) 0 0 = 885
    ∧ booking_at envC6 "SYD-MEL" (some 42) 0 0
        ≠ spec_booking_at envC6 "SYD-MEL" (some 42) 0 0 := by
  have hraw : booking_raw envC6 "SYD-MEL" (some 42) 0 0 = 8847/10 := by
    simp only [booking_raw, booking_noise, seedMaterial, envC6, env0, Option.getD_some]
    norm_num [show pyBase2 0 0 "SYD-MEL" = (584 : ℤ) from by decide]
  have hA : booking_at envC6 "SYD-MEL" (some 42) 0 0 = 884 := by
    unfold booking_at
    rw [npAstypeInt_max_nonneg, hraw]
    norm_num
  have hB : spec_booking_at envC6 "SYD-MEL" (some 42) 0 0 = 885 := by
    unfold spec_booking_at
    rw [hraw, round_eq]
    norm_num
  refine ⟨hA, hB, ?_⟩
  rw [hA, hB]
  decide

/-- C6 (amended): For every ambient state, route, seed, entropy and
month index, the booking value is
`⌊max(0, base2 + 300·(1 + 0.4·sin(2π·t/12)) + noise2[t])⌋` — the combined
value is clamped at zero and then truncated (equivalently floored, the
argument being non-negative), not rounded — and in particular every booking
value is a non-negative integer. -/
theorem booking_counts_floor_and_nonneg
    (env : Env) (route : String) (seed : Option ℕ) (entropy t : ℕ) :
    booking_at env route seed entropy t
      = ⌊max 0 (booking_raw env route seed entropy t)⌋
    ∧ 0 ≤ booking_at env route seed entropy t := by
  have h : (0 : ℚ) ≤ max 0 (booking_raw env route seed entropy t) := le_max_left _ _
  refine ⟨?_, ?_⟩
  · unfold booking_at npAstypeInt
    rw [if_pos h]
  · unfold booking_at npAstypeInt
    rw [if_pos h]
    exact Int.le_floor.mpr (by exact_mod_cast h)

/-! ## C8 — the month axis -/

/-- C8 (counterexample): `pd.date_range(end=today, periods=months, freq="M")`
rolls the end back to the latest month end *on or before* `today`: generated
on 2026-10-12 (month index 24321), the last timestamp of the series is
2026-09-30 (month index 24320) — the previous month, not the current month.
The last timestamp lies in the current month only when generation happens on
the last day of a month. -/
theorem month_axis_last_not_in_current_month :
    ((simulate_price_trend env0 "SYD-MEL" 3 (some 42) 0).month.getLast?).map Date.mi
      = some 24320
    ∧ env0.today.mi = 24321 := by
  decide

/-- C8 (amended): For every ambient state, route, seed, entropy and
requested `months ≥ 1`: both value series and the shared month axis have
length exactly `months`; the timestamps are strictly increasing, are ends of
consecutive calendar months (so spaced by calendar month, 28–31 days, not
fixed 30-day chunks); and the last timestamp is the latest month end on or
before the generation date — the current month's end exactly when generation
occurs on that day, the previous month's end otherwise. -/
theorem month_axis_shape (env : Env) (route : String) (months : ℕ)
    (seed : Option ℕ) (entropy : ℕ) (hm : 1 ≤ months) :
    (simulate_price_trend env route months seed entropy).price.length = months
    ∧ (simulate_booking_counts env route months seed entropy).bookings.length = months
    ∧ (simulate_booking_counts env route months seed entropy).month
        = (simulate_price_trend env route months seed entropy).month
    ∧ (simulate_price_trend env route months seed entropy).month.length = months
    ∧ (simulate_price_trend env route months seed entropy).month.Pairwise
        (fun a b => a.mi < b.mi)
    ∧ List.Chain' (fun a b => b.mi = a.mi + 1)
        (simulate_price_trend env route months seed entropy).month
    ∧ (∀ d ∈ (simulate_price_trend env route months seed entropy).month,
        d.day = daysInMonth d.mi)
    ∧ (simulate_price_trend env route months seed entropy).month.getLast?
        = some ⟨rollbackMonthEnd env.today, daysInMonth (rollbackMonthEnd env.today)⟩ := by
  obtain ⟨k, rfl⟩ : ∃ k, months = k + 1 := ⟨months - 1, by omega⟩
  refine ⟨?_, ?_, rfl, ?_, ?_, ?_, ?_, ?_⟩
  · simp [simulate_price_trend]
  · simp [simulate_booking_counts]
  · simp [simulate_price_trend, date_range_end_M]
  · simp only [simulate_price_trend, date_range_end_M]
    rw [List.pairwise_map]
    refine (List.pairwise_lt_range _).imp ?_
    intro i j hij
    show rollbackMonthEnd env.today + (i : ℤ) - (((k + 1 : ℕ) : ℤ) - 1)
        < rollbackMonthEnd env.today + (j : ℤ) - (((k + 1 : ℕ) : ℤ) - 1)
    omega
  · simp only [simulate_price_trend, date_range_end_M]
    rw [List.chain'_map]
    refine (List.chain'_range_succ _ k).mpr ?_
    intro m hmk
    show rollbackMonthEnd env.today + ((m.succ : ℕ) : ℤ) - (((k + 1 : ℕ) : ℤ) - 1)
        = rollbackMonthEnd env.today + ((m : ℕ) : ℤ) - (((k + 1 : ℕ) : ℤ) - 1) + 1
    push_cast
    ring
  · intro d hd
    simp only [simulate_price_trend, date_range_end_M, List.mem_map] at hd
    obtain ⟨i, _, rfl⟩ := hd
    rfl
  · simp only [simulate_price_trend, date_range_end_M, List.range_succ, List.map_append,
      List.map_cons, List.map_nil, List.getLast?_concat]
    have he : rollbackMonthEnd env.today + (k : ℤ) - (((k + 1 : ℕ) : ℤ) - 1)
        = rollbackMonthEnd env.today := by
      push_cast
      ring
    rw [he]

/-- Witness for the amended C8 theorem: the concrete instantiation at
`env0` (today = 2026-10-12), route `"SYD-MEL"`, 3 months, seed 42. -/
theorem month_axis_shape_witness :
    1 ≤ 3
    ∧ ((simulate_price_trend env0 "SYD-MEL" 3 (some 42) 0).price.length = 3
    ∧ (simulate_booking_counts env0 "SYD-MEL" 3 (some 42) 0).bookings.length = 3
    ∧ (simulate_booking_counts env0 "SYD-MEL" 3 (some 42) 0).month
        = (simulate_price_trend env0 "SYD-MEL" 3 (some 42) 0).month
    ∧ (simulate_price_trend env0 "SYD-MEL" 3 (some 42) 0).month.length = 3
    ∧ (simulate_price_trend env0 "SYD-MEL" 3 (some 42) 0).month.Pairwise
        (fun a b => a.mi < b.mi)
    ∧ List.Chain' (fun a b => b.mi = a.mi + 1)
        (simulate_price_trend env0 "SYD-MEL" 3 (some 42) 0).month
    ∧ (∀ d ∈ (simulate_price_trend env0 "SYD-MEL" 3 (some 42) 0).month,
        d.day = daysInMonth d.mi)
    ∧ (simulate_price_trend env0 "SYD-MEL" 3 (some 42) 0).month.getLast?
        = some ⟨rollbackMonthEnd env0.today, daysInMonth (rollbackMonthEnd env0.today)⟩) :=
  ⟨by decide, month_axis_shape env0 "SYD-MEL" 3 (some 42) 0 (by decide)⟩

/-! ## C5 — the two left-joins neither duplicate nor drop route rows -/

/-- If a list's key values are pairwise distinct, at most one element matches
any given key. -/
theorem filter_key_length_le_one {β : Type} (key : β → Option String) (rs : List β)
    (h : rs.Pairwise (fun x y => key x ≠ key y)) (k : Option String) :
    (rs.filter (fun b => k == key b)).length ≤ 1 := by
  induction rs with
  | nil => simp
  | cons a l ih =>
    rw [List.pairwise_cons] at h
    by_cases hk : (k == key a) = true
    · have hcons : List.filter (fun b => k == key b) (a :: l)
          = a :: List.filter (fun b => k == key b) l := by
        simp [List.filter_cons, hk]
      have hnil : l.filter (fun b => k == key b) = [] := by
        rw [List.filter_eq_nil_iff]
        intro x hx hbeq
        exact h.1 x hx (eq_of_beq hk ▸ eq_of_beq hbeq)
      rw [hcons, hnil]
      simp
    · have hcons : List.filter (fun b => k == key b) (a :: l)
          = List.filter (fun b => k == key b) l := by
        simp [List.filter_cons, hk]
      rw [hcons]
      exact ih h.2

/-- A left merge in which every left row matches at most one right row emits
exactly one output row per left row. -/
theorem leftMerge_length {α β : Type} (mk : α → β → Bool) (ls : List α) (rs : List β)
    (h : ∀ l, (rs.filter (mk l)).length ≤ 1) :
    (leftMerge mk ls rs).length = ls.length := by
  induction ls with
  | nil => rfl
  | cons a l ih =>
    have hone : (match rs.filter (mk a) with
        | [] => [(a, none)]
        | ms => ms.map (fun m => (a, some m))).length = 1 := by
      rcases hfl : rs.filter (mk a) with _ | ⟨x, xs⟩
      · rfl
      · have hxs : xs.length = 0 := by
          have hh := h a
          rw [hfl] at hh
          simpa using hh
        simp [hxs]
    simp only [leftMerge] at ih ⊢
    rw [List.flatMap_cons, List.length_append, ih, hone, List.length_cons]
    omega

/-- C5: When the IATA codes of the filtered airport table are pairwise
distinct, `prepare_routes` returns exactly one enriched row per filtered
route row: the two left-joins neither duplicate nor drop rows. -/
theorem prepare_routes_preserves_rows (airports : List Airport) (routes : List RouteRow)
    (huniq : (filtered_airports airports).Pairwise (fun x y => x.iata ≠ y.iata)) :
    (prepare_routes airports routes).length = (filtered_routes routes).length := by
  unfold prepare_routes
  rw [List.length_map]
  rw [leftMerge_length]
  · rw [leftMerge_length]
    intro l
    exact filter_key_length_le_one Airport.iata _ huniq l.sourceIATA
  · intro l
    exact filter_key_length_le_one Airport.iata _ huniq l.1.destIATA

/-- Witness for C5: the demo feed (unique IATA codes in the filtered airport
set; a resolvable route, an unresolvable one and a sentinel one), evaluated
concretely. -/
theorem prepare_routes_preserves_rows_witness :
    (filtered_airports demoAirports).Pairwise (fun x y => x.iata ≠ y.iata)
    ∧ (prepare_routes demoAirports demoRoutes).length
        = (filtered_routes demoRoutes).length :=
  ⟨by decide, prepare_routes_preserves_rows demoAirports demoRoutes (by decide)⟩

/-! ## C4 — ranking order -/

/-- C4 (counterexample): Ties are *not* emitted in first-seen order:
with `"ZZZ-AAA"` seen before `"AAA-BBB"` (one row each, no country filter),
`groupby` emits the keys in ascending alphabetical order before the count
sort, which leaves the tied records as `[("AAA-BBB", 1), ("ZZZ-AAA", 1)]` —
not the first-seen order `[("ZZZ-AAA", 1), ("AAA-BBB", 1)]`. -/
theorem route_counts_ties_not_first_seen :
    route_counts [rowZ, rowA] none = [("AAA-BBB", 1), ("ZZZ-AAA", 1)]
    ∧ route_counts [rowZ, rowA] none ≠ [("ZZZ-AAA", 1), ("AAA-BBB", 1)] := by
  decide

/-- C4 (amended): For every enriched route table and every optional
source-country filter, the route frequency records are sorted descending by
count; the order of records with equal counts is the order the count sort
leaves on the alphabetically grouped keys, not the first-seen order of the
filtered table. -/
theorem route_counts_sorted_desc (rows : List Enriched) (filt : Option String) :
    (route_counts rows filt).Pairwise (fun a b => b.2 ≤ a.2) := by
  haveI : IsTotal (String × ℕ) (fun a b => b.2 ≤ a.2) := ⟨fun a b => Nat.le_total b.2 a.2⟩
  haveI : IsTrans (String × ℕ) (fun a b => b.2 ≤ a.2) :=
    ⟨fun _ _ _ hab hbc => Nat.le_trans hbc hab⟩
  exact List.sorted_insertionSort _ _

/-! ## C9 — gateway failures vs empty successes -/

/-- C9 (counterexample): A failure value can be indistinguishable from a
successful result whose data array is empty: the exception failure with
message `"boom"` returns exactly the dict `{"error": "boom"}`, and a 2xx
response whose JSON body is that same dict is returned verbatim as a success
— a success whose `data` array (via `flights.get("data", [])`) is empty.
The two values are equal, so no caller can tell them apart. -/
theorem gateway_failure_indistinguishable_from_empty_success :
    (get_live_flights (some "k") (HttpOutcome.exn "boom")).1
      = (get_live_flights (some "k")
          (HttpOutcome.ok (Json.obj [("error", Json.str "boom")]))).1
    ∧ (get_live_flights (some "k")
        (HttpOutcome.ok (Json.obj [("error", Json.str "boom")]))).2 = true
    ∧ dictGet (Json.obj [("error", Json.str "boom")]) "data" (Json.arr [])
        = Json.arr [] :=
  ⟨rfl, rfl, rfl⟩

/-- C9 (amended): Missing credentials short-circuit: the gateway returns
the fixed `{"error": …}` dict without attempting the HTTP call. Every
failure value the gateway returns carries the `"error"` key, and the caller
distinguishes failures from empty successes whenever the successful body
does not itself contain an `"error"` key: such a body with an empty data
array renders as the informational branch, while every `"error"`-carrying
value renders as the error branch. -/
theorem gateway_failures_distinguishable (key : Option String) (http : HttpOutcome)
    (m : String) (body : Json) (hbody : pyIn "error" body = false) :
    (keyFalsy key = true → get_live_flights key http = (missing_key_error, false))
    ∧ pyIn "error" (get_live_flights key (HttpOutcome.exn m)).1 = true
    ∧ pyIn "error" (get_live_flights none http).1 = true
    ∧ (dictGet body "data" (Json.arr []) = Json.arr []
        → live_flights_branch body = UiBranch.infoNoFlights)
    ∧ (∀ v : Json, pyIn "error" v = true → (live_flights_branch v).isError = true) := by
  refine ⟨?_, ?_, ?_, ?_, ?_⟩
  · intro hk
    simp [get_live_flights, hk]
  · by_cases hk : keyFalsy key = true
    · simp [get_live_flights, hk, missing_key_error, pyIn]
    · simp [get_live_flights, hk, pyIn]
  · simp [get_live_flights, keyFalsy, missing_key_error, pyIn]
  · intro hdata
    simp [live_flights_branch, hbody, hdata, pyFalsy]
  · intro v hv
    simp [live_flights_branch, hv, UiBranch.isError]

/-- Witness for the amended C9 theorem: credential present, a 2xx body
`{"data": []}` (no `"error"` key, empty data array), exception message
`"boom"`. -/
theorem gateway_failures_distinguishable_witness :
    pyIn "error" (Json.obj [("data", Json.arr [])]) = false
    ∧ ((keyFalsy (some "k") = true
        → get_live_flights (some "k") (HttpOutcome.ok (Json.obj [("data", Json.arr [])]))
            = (missing_key_error, false))
    ∧ pyIn "error" (get_live_flights (some "k") (HttpOutcome.exn "boom")).1 = true
    ∧ pyIn "error"
        (get_live_flights none (HttpOutcome.ok (Json.obj [("data", Json.arr [])]))).1 = true
    ∧ (dictGet (Json.obj [("data", Json.arr [])]) "data" (Json.arr []) = Json.arr []
        → live_flights_branch (Json.obj [("data", Json.arr [])]) = UiBranch.infoNoFlights)
    ∧ (∀ v : Json, pyIn "error" v = true → (live_flights_branch v).isError = true)) :=
  ⟨by decide,
   gateway_failures_distinguishable (some "k")
     (HttpOutcome.ok (Json.obj [("data", Json.arr [])])) "boom"
     (Json.obj [("data", Json.arr [])]) (by decide)⟩

end AirlineDemand
